import Mathlib

/-!
A shallow embedding of the per-key document synchronization manager
(`DocumentManager`, src/lib/documentmanager.js).

The manager owns three per-key maps — `_documents` (cached entities),
`_documentChanges` (queued change records) and `_documentDeferreds`
(pending-request deferreds) — and reacts to four external event sources:
client `getDocument` calls, `imageChanged` records from the change stream,
snapshot-fetch completions (success or failure), and one-shot `closed`
signals emitted by installed Document entities.  All handler bodies run to
completion without interleaving (single-threaded event loop), so the
embedding is a step function on an explicit state; asynchronous fetch
completions and closed signals are separate events, enabled only when a
matching in-flight fetch token (resp. live subscription) exists.

Observable behaviour (returned promises, deferred settlement, applyChange
calls, fetch starts, log lines) is emitted as a list of `Obs` values per
step.  The external Document collaborator is a parameter `Env ε`: a
constructor from a raw snapshot and an `applyChange` function returning the
JavaScript boolean result and the mutated entity state.
-/

namespace GenAssets

abbrev Key := Int

/-- A raw change record as delivered by the change stream.  `id` is the
record's document-key field (`none` models an absent field; JavaScript's
`if (!id)` also treats the present numeric key `0` as falsy, which the
embedding models explicitly).  `op` identifies the change payload. -/
structure Change where
  id : Option Key
  op : Nat
deriving DecidableEq, Repr

/-- The external Document collaborator: `mk` builds an entity state from a
raw snapshot (`new Document(..., raw)`), `apply` is `_applyChange`,
returning the boolean success flag and the (possibly mutated) state. -/
structure Env (ε : Type) where
  mkDoc : Nat → ε
  apply : ε → Change → Bool × ε

/-- Settlement status of a Q deferred: settling is one-shot, later resolve
or reject calls on a settled deferred are no-ops. -/
inductive DStatus
  | pending
  | resolvedSt
  | rejectedSt
deriving DecidableEq, Repr

/-- A deferred as held in `_documentDeferreds`: an allocation token
identifying the underlying promise, plus its settlement status. -/
structure Deferred where
  tok : Nat
  status : DStatus
deriving DecidableEq, Repr

/-- An installed Document entity: an allocation token identifying the
object instance, plus its current state. -/
structure Entity (ε : Type) where
  tok : Nat
  val : ε
deriving DecidableEq, Repr

/-- The value `getDocument` returns: the promise of the existing deferred,
a fresh already-resolved promise wrapping the cached entity (`new Q(doc)`),
or the promise of a newly created deferred. -/
inductive RetVal
  | sharedPromise (dtok : Nat)
  | immediate (etok : Nat)
  | freshPromise (dtok : Nat)
deriving DecidableEq, Repr

/-- Observable effects of one handler run: the value returned to a
`getDocument` caller, an `_applyChange` call with its result, a deferred
settling (resolve carries the entity token passed, reject the error),
a snapshot fetch being issued, and the log lines the source emits. -/
inductive Obs
  | ret (k : Key) (r : RetVal)
  | applied (k : Key) (c : Change) (ok : Bool)
  | resolvedObs (k : Key) (dtok : Nat) (etok : Option Nat)
  | rejectedObs (k : Key) (dtok : Nat) (err : Option Nat)
  | fetchStarted (k : Key) (ftok : Nat)
  | warnedMalformed (c : Change)
  | warnedApplyFail (k : Key)
  | erroredFetch (k : Key) (err : Nat)
deriving DecidableEq, Repr

/-- The manager state: the three per-key maps of the source, plus the
in-flight fetches (token, key), the live closed-signal subscriptions
(entity token, key), a fresh-token counter, and a flag recording that a
handler threw (dereferenced `undefined`). -/
structure DMState (ε : Type) where
  documents : Key → Option (Entity ε)
  documentChanges : Key → Option (List Change)
  documentDeferreds : Key → Option Deferred
  fetches : List (Nat × Key)
  subscribers : List (Nat × Key)
  nextTok : Nat
  crashed : Bool

/-- Pointwise update of a per-key map (JavaScript property assignment;
assigning `none` models `delete`). -/
def upd {α : Type} (m : Key → α) (k : Key) (v : α) : Key → α :=
  fun q => if q = k then v else m q

/-- The external events the manager reacts to.  Fetch completions and
closed signals are enabled only for an in-flight fetch token resp. a live
subscription; `raw` is the fetched snapshot and `err` the fetch error. -/
inductive Ev
  | getDocument (k : Key)
  | imageChanged (c : Change)
  | fetchSucceeds (ftok : Nat) (raw : Nat)
  | fetchFails (ftok : Nat) (err : Nat)
  | closedSignal (etok : Nat)
deriving DecidableEq, Repr

/-- The synchronous part of `_resetDocument`: set `_documentChanges[id]`
to `[]`, delete `_documents[id]`, and issue `_getEntireDocument(id)` (a
fresh in-flight fetch).  The fetch's completion handlers run later, as
`fetchSucceeds` / `fetchFails` events. -/
def resetDocument {ε : Type} (s : DMState ε) (id : Key) :
    DMState ε × List Obs :=
  ({ s with
      documentChanges := upd s.documentChanges id (some []),
      documents := upd s.documents id none,
      fetches := s.fetches ++ [(s.nextTok, id)],
      nextTok := s.nextTok + 1 },
   [Obs.fetchStarted id s.nextTok])

/-- The body of the recursive drain `_processNextChange`, with the
recursion depth made explicit: each recursive self-call follows a `shift`
that shortens the queue by one, so the queue length bounds the recursion
and the first argument carries that bound (the `0` case is unreachable
from `processNextChange`, which always passes queue length + 1).

The body mirrors the source: return if the queue or the deferred for `id`
is gone (document closed while processing); if the queue is empty, resolve
the deferred with the current document and delete it from the registry;
otherwise shift the front record and call `_applyChange` — on success
recurse, on failure warn and `_resetDocument`.  A missing document at an
apply step models the JavaScript `undefined._applyChange` throw. -/
def processNextChangeAux {ε : Type} (env : Env ε) :
    Nat → DMState ε → Key → DMState ε × List Obs
  | 0, s, _ => (s, [])
  | fuel + 1, s, id =>
    match s.documentChanges id, s.documentDeferreds id with
    | none, _ => (s, [])
    | some _, none => (s, [])
    | some [], some d =>
        ({ s with documentDeferreds := upd s.documentDeferreds id none },
         if d.status = DStatus.pending then
           [Obs.resolvedObs id d.tok ((s.documents id).map Entity.tok)]
         else [])
    | some (c :: rest), some _ =>
        match s.documents id with
        | none =>
            ({ s with
                documentChanges := upd s.documentChanges id (some rest),
                crashed := true }, [])
        | some e =>
            let p := env.apply e.val c
            if p.1 then
              let s1 : DMState ε :=
                { s with
                    documentChanges := upd s.documentChanges id (some rest),
                    documents := upd s.documents id (some ⟨e.tok, p.2⟩) }
              let r := processNextChangeAux env fuel s1 id
              (r.1, Obs.applied id c true :: r.2)
            else
              let s1 : DMState ε :=
                { s with documentChanges := upd s.documentChanges id (some rest) }
              let r := resetDocument s1 id
              (r.1, Obs.applied id c false :: Obs.warnedApplyFail id :: r.2)

/-- The recursive drain `_processNextChange` for key `id`.  The recursion
bound passed to the body is the current queue length plus one, which is
exact: when the front change applies successfully the body re-enters with
the shortened queue and exactly the matching bound. -/
def processNextChange {ε : Type} (env : Env ε) (s : DMState ε) (id : Key) :
    DMState ε × List Obs :=
  processNextChangeAux env (((s.documentChanges id).getD []).length + 1) s id

/-- The success handler of `_resetDocument`'s fetch: build a new Document
from the raw snapshot, subscribe to its one-shot closed signal, install it
in `_documents[id]`, and start draining. -/
def fetchSuccess {ε : Type} (env : Env ε) (s : DMState ε) (id : Key)
    (raw : Nat) : DMState ε × List Obs :=
  let s1 : DMState ε :=
    { s with
        documents := upd s.documents id (some ⟨s.nextTok, env.mkDoc raw⟩),
        subscribers := s.subscribers ++ [(s.nextTok, id)],
        nextTok := s.nextTok + 1 }
  processNextChange env s1 id

/-- The failure handler of `_resetDocument`'s fetch: log the error, then
`this._documentDeferreds[id].reject(err)` — unguarded, so if no deferred
is registered for `id` the handler throws; note the rejected deferred is
NOT deleted from the registry. -/
def fetchFailure {ε : Type} (s : DMState ε) (id : Key) (err : Nat) :
    DMState ε × List Obs :=
  match s.documentDeferreds id with
  | some d =>
      ({ s with
          documentDeferreds :=
            upd s.documentDeferreds id (some ⟨d.tok, DStatus.rejectedSt⟩) },
       Obs.erroredFetch id err ::
         (if d.status = DStatus.pending then [Obs.rejectedObs id d.tok (some err)]
          else []))
  | none =>
      ({ s with crashed := true }, [Obs.erroredFetch id err])

/-- The closed-signal handler registered on each installed document: delete
`_documents[id]` and `_documentChanges[id]`; if a deferred is registered
for `id`, reject it (with no error value) and delete it. -/
def closedHandler {ε : Type} (s : DMState ε) (id : Key) :
    DMState ε × List Obs :=
  let s1 : DMState ε :=
    { s with
        documents := upd s.documents id none,
        documentChanges := upd s.documentChanges id none }
  match s.documentDeferreds id with
  | some d =>
      ({ s1 with documentDeferreds := upd s1.documentDeferreds id none },
       if d.status = DStatus.pending then [Obs.rejectedObs id d.tok none]
       else [])
  | none => (s1, [])

/-- The body of `_initDocument`: allocate a fresh deferred, register it in
`_documentDeferreds[id]`, and call `_resetDocument(id)`.  Returns the new
deferred's token alongside the state and observations. -/
def initDocument {ε : Type} (s : DMState ε) (id : Key) :
    DMState ε × List Obs × Nat :=
  let s1 : DMState ε :=
    { s with
        documentDeferreds :=
          upd s.documentDeferreds id (some ⟨s.nextTok, DStatus.pending⟩),
        nextTok := s.nextTok + 1 }
  let r := resetDocument s1 id
  (r.1, r.2, s.nextTok)

/-- The public `getDocument(id)`: return the registered deferred's promise
when one exists (whatever its settlement status), else a fresh resolved
promise wrapping the cached document when one exists, else `_initDocument`
and return the new deferred's promise. -/
def getDocument {ε : Type} (s : DMState ε) (id : Key) :
    DMState ε × List Obs :=
  match s.documentDeferreds id with
  | some d => (s, [Obs.ret id (RetVal.sharedPromise d.tok)])
  | none =>
      match s.documents id with
      | some e => (s, [Obs.ret id (RetVal.immediate e.tok)])
      | none =>
          let r := initDocument s id
          (r.1, r.2.1 ++ [Obs.ret id (RetVal.freshPromise r.2.2)])

/-- The `imageChanged` handler `_handleImageChanged`: drop (with a warning)
records whose key field is falsy; drop silently records for keys with
neither a registered deferred nor a cached document; otherwise push the
record on the key's queue (created on demand), and if it is the first
queued record and no deferred is active, either allocate a deferred and
start draining (document present) or run `_initDocument` (document
absent). -/
def handleImageChanged {ε : Type} (env : Env ε) (s : DMState ε)
    (c : Change) : DMState ε × List Obs :=
  if c.id = none ∨ c.id = some 0 then (s, [Obs.warnedMalformed c])
  else
    let id := c.id.getD 0
    if (s.documentDeferreds id).isNone && (s.documents id).isNone then (s, [])
    else
      let changes1 := ((s.documentChanges id).getD []) ++ [c]
      let s1 : DMState ε :=
        { s with documentChanges := upd s.documentChanges id (some changes1) }
      if changes1.length = 1 && (s1.documentDeferreds id).isNone then
        if (s1.documents id).isSome then
          let s2 : DMState ε :=
            { s1 with
                documentDeferreds :=
                  upd s1.documentDeferreds id
                    (some ⟨s1.nextTok, DStatus.pending⟩),
                nextTok := s1.nextTok + 1 }
          processNextChange env s2 id
        else
          let r := initDocument s1 id
          (r.1, r.2.1)
      else (s1, [])

/-- One reaction of the manager to an external event.  A crashed manager
(a handler threw) reacts to nothing.  Fetch completions are enabled only
for a token in `fetches` (and consume it); closed signals only for a live
subscription (and consume it, the signal being one-shot). -/
def step {ε : Type} (env : Env ε) (s : DMState ε) (ev : Ev) :
    DMState ε × List Obs :=
  if s.crashed then (s, [])
  else
    match ev with
    | Ev.getDocument k => getDocument s k
    | Ev.imageChanged c => handleImageChanged env s c
    | Ev.fetchSucceeds ftok raw =>
        match s.fetches.find? (fun p => p.1 = ftok) with
        | some p =>
            fetchSuccess env
              { s with fetches := s.fetches.filter (fun q => q.1 ≠ ftok) }
              p.2 raw
        | none => (s, [])
    | Ev.fetchFails ftok err =>
        match s.fetches.find? (fun p => p.1 = ftok) with
        | some p =>
            fetchFailure
              { s with fetches := s.fetches.filter (fun q => q.1 ≠ ftok) }
              p.2 err
        | none => (s, [])
    | Ev.closedSignal etok =>
        match s.subscribers.find? (fun p => p.1 = etok) with
        | some p =>
            closedHandler
              { s with
                  subscribers := s.subscribers.filter (fun q => q.1 ≠ etok) }
              p.2
        | none => (s, [])

/-- Run a sequence of events from a state, concatenating observations. -/
def run {ε : Type} (env : Env ε) (s : DMState ε) : List Ev → DMState ε × List Obs
  | [] => (s, [])
  | ev :: evs =>
      let r1 := step env s ev
      let r2 := run env r1.1 evs
      (r2.1, r1.2 ++ r2.2)

/-- The state of a freshly constructed manager: all three maps empty, no
in-flight fetch, no subscription. -/
def initState {ε : Type} : DMState ε :=
  { documents := fun _ => none
    documentChanges := fun _ => none
    documentDeferreds := fun _ => none
    fetches := []
    subscribers := []
    nextTok := 0
    crashed := false }

/-- Sequential application of a list of changes to an entity state,
ignoring the success flags. -/
def applyList {ε : Type} (env : Env ε) : ε → List Change → ε
  | v, [] => v
  | v, c :: cs => applyList env (env.apply v c).2 cs

/-- Every change in the list applies successfully when applied in order
from the given entity state. -/
def allApplicable {ε : Type} (env : Env ε) : ε → List Change → Bool
  | _, [] => true
  | v, c :: cs => (env.apply v c).1 && allApplicable env (env.apply v c).2 cs

/-- Sequential application from the given entity state hits at least one
change that `_applyChange` rejects. -/
def failsSomewhere {ε : Type} (env : Env ε) : ε → List Change → Bool
  | _, [] => false
  | v, c :: cs =>
      !(env.apply v c).1 || failsSomewhere env (env.apply v c).2 cs

/-- Project the `_applyChange` calls out of an observation list, in
order: key, change record, reported success. -/
def appliedOf : List Obs → List (Key × Change × Bool)
  | [] => []
  | Obs.applied k c ok :: os => (k, c, ok) :: appliedOf os
  | _ :: os => appliedOf os

/-- Does the observation settle (resolve or reject) a deferred of key `k`? -/
def isSettle (k : Key) : Obs → Bool
  | Obs.resolvedObs q _ _ => q = k
  | Obs.rejectedObs q _ _ => q = k
  | _ => false

/-- Does the observation start a snapshot fetch for key `k`? -/
def isStart (k : Key) : Obs → Bool
  | Obs.fetchStarted q _ => q = k
  | _ => false

/-- The key `k` is in the `Ready` state: an entity is cached, no deferred
is registered, and the change queue is empty or never created. -/
def Ready {ε : Type} (s : DMState ε) (k : Key) (e : Entity ε) : Prop :=
  s.crashed = false ∧ s.documents k = some e ∧
    s.documentDeferreds k = none ∧
    (s.documentChanges k = some [] ∨ s.documentChanges k = none)

/-- A concrete entity state for witnesses: the list of changes applied so
far, every change applying successfully. -/
def envOk : Env (List Change) :=
  { mkDoc := fun _ => [], apply := fun v c => (true, v ++ [c]) }

/-- A concrete entity state for witnesses in which `_applyChange` rejects
exactly the changes whose `op` is `99`. -/
def envFail : Env (List Change) :=
  { mkDoc := fun _ => []
    apply := fun v c => if c.op = 99 then (false, v) else (true, v ++ [c]) }

/-- A concrete `Ready` state for key `7` (the state reached after a
successful fetch and drain): entity token `2` installed with empty state,
empty queue, no deferred, old entity still subscribed to closed. -/
def readyW : DMState (List Change) :=
  { documents := upd (fun _ => none) 7 (some ⟨2, []⟩)
    documentChanges := upd (fun _ => none) 7 (some [])
    documentDeferreds := fun _ => none
    fetches := []
    subscribers := [(2, 7)]
    nextTok := 3
    crashed := false }

/-- A concrete mid-resync state for key `7`: the entity was discarded, a
refetch (token `4`) is in flight, the pending request (deferred token `3`)
is still registered, and the discarded entity (token `2`) is still
subscribed to the closed signal. -/
def midResyncW : DMState (List Change) :=
  { documents := fun _ => none
    documentChanges := upd (fun _ => none) 7 (some [])
    documentDeferreds := upd (fun _ => none) 7 (some ⟨3, DStatus.pending⟩)
    fetches := [(4, 7)]
    subscribers := [(2, 7)]
    nextTok := 5
    crashed := false }

/-- A concrete mid-fetch state for key `7` with three queued changes,
the second of which `envFail` rejects. -/
def midFetchQueueW : DMState (List Change) :=
  { documents := fun _ => none
    documentChanges :=
      upd (fun _ => none) 7 (some [⟨some 7, 1⟩, ⟨some 7, 99⟩, ⟨some 7, 2⟩])
    documentDeferreds := upd (fun _ => none) 7 (some ⟨3, DStatus.pending⟩)
    fetches := [(4, 7)]
    subscribers := []
    nextTok := 5
    crashed := false }

/-- Event trace: `getDocument(7)`, the snapshot fetch fails, then a second
`getDocument(7)`. -/
def traceFetchFail : List Ev :=
  [Ev.getDocument 7, Ev.fetchFails 1 42, Ev.getDocument 7]

/-- Event trace: `getDocument(7)` and a successful fetch install entity
token `2`; a change `envFail` cannot apply forces a resync (refetch token
`4`, deferred token `3`); the discarded entity emits closed mid-refetch;
then the refetch completes successfully. -/
def traceClosedMidFetch : List Ev :=
  [Ev.getDocument 7, Ev.fetchSucceeds 1 5, Ev.imageChanged ⟨some 7, 99⟩,
   Ev.closedSignal 2, Ev.fetchSucceeds 4 6]

/-- Event trace: as `traceClosedMidFetch`, but the refetch fails instead
of succeeding. -/
def traceClosedMidFetchFail : List Ev :=
  [Ev.getDocument 7, Ev.fetchSucceeds 1 5, Ev.imageChanged ⟨some 7, 99⟩,
   Ev.closedSignal 2, Ev.fetchFails 4 11]

@[simp]
theorem upd_same {α : Type} (m : Key → α) (k : Key) (v : α) : upd m k v k = v := by
  simp [upd]

@[simp]
theorem upd_ne {α : Type} (m : Key → α) (k : Key) (v : α) {q : Key}
    (h : q ≠ k) : upd m k v q = m q := by
  simp [upd, h]

theorem pnc_changes_none {ε : Type} (env : Env ε) (s : DMState ε) (id : Key)
    (h : s.documentChanges id = none) :
    processNextChange env s id = (s, []) := by
  simp [processNextChange, processNextChangeAux, h]

theorem pnc_deferred_none {ε : Type} (env : Env ε) (s : DMState ε) (id : Key)
    (h : s.documentDeferreds id = none) :
    processNextChange env s id = (s, []) := by
  rw [processNextChange]
  rw [processNextChangeAux.eq_def]
  split
  · rfl
  · split <;> simp_all

theorem pnc_nil {ε : Type} (env : Env ε) (s : DMState ε) (id : Key) (d : Deferred)
    (hc : s.documentChanges id = some []) (hd : s.documentDeferreds id = some d) :
    processNextChange env s id =
      ({ s with documentDeferreds := upd s.documentDeferreds id none },
       if d.status = DStatus.pending then
         [Obs.resolvedObs id d.tok ((s.documents id).map Entity.tok)]
       else []) := by
  simp [processNextChange, processNextChangeAux, hc, hd]

theorem pnc_cons_nodoc {ε : Type} (env : Env ε) (s : DMState ε) (id : Key)
    (d : Deferred) (c : Change) (rest : List Change)
    (hc : s.documentChanges id = some (c :: rest))
    (hd : s.documentDeferreds id = some d)
    (he : s.documents id = none) :
    processNextChange env s id =
      ({ s with
          documentChanges := upd s.documentChanges id (some rest),
          crashed := true }, []) := by
  simp [processNextChange, processNextChangeAux, hc, hd, he]

theorem pnc_cons_ok {ε : Type} (env : Env ε) (s : DMState ε) (id : Key)
    (d : Deferred) (c : Change) (rest : List Change) (e : Entity ε)
    (hc : s.documentChanges id = some (c :: rest))
    (hd : s.documentDeferreds id = some d)
    (he : s.documents id = some e)
    (hap : (env.apply e.val c).1 = true) :
    processNextChange env s id =
      ((processNextChange env
          { s with
              documentChanges := upd s.documentChanges id (some rest),
              documents := upd s.documents id (some ⟨e.tok, (env.apply e.val c).2⟩) }
          id).1,
       Obs.applied id c true ::
         (processNextChange env
           { s with
               documentChanges := upd s.documentChanges id (some rest),
               documents := upd s.documents id (some ⟨e.tok, (env.apply e.val c).2⟩) }
           id).2) := by
  simp [processNextChange, processNextChangeAux, hc, hd, he, hap]

theorem pnc_cons_fail {ε : Type} (env : Env ε) (s : DMState ε) (id : Key)
    (d : Deferred) (c : Change) (rest : List Change) (e : Entity ε)
    (hc : s.documentChanges id = some (c :: rest))
    (hd : s.documentDeferreds id = some d)
    (he : s.documents id = some e)
    (hap : (env.apply e.val c).1 = false) :
    processNextChange env s id =
      ((resetDocument
          { s with documentChanges := upd s.documentChanges id (some rest) } id).1,
       Obs.applied id c false :: Obs.warnedApplyFail id ::
         (resetDocument
           { s with documentChanges := upd s.documentChanges id (some rest) } id).2) := by
  simp [processNextChange, processNextChangeAux, hc, hd, he, hap]

/-- Claim C3: `getDocument(key)` returns the existing Pending Request's
future when one exists (request deduplication); otherwise, when a Cached
Entity exists, an already-resolved future wrapping that entity; otherwise
it creates a Pending Request, issues a full snapshot fetch, and returns
the new future. -/
theorem claim3_getDocument_cases {ε : Type} (env : Env ε) (s : DMState ε)
    (k : Key) (hcr : s.crashed = false) :
    (∀ d, s.documentDeferreds k = some d →
      step env s (Ev.getDocument k) = (s, [Obs.ret k (RetVal.sharedPromise d.tok)])) ∧
    (∀ e, s.documentDeferreds k = none → s.documents k = some e →
      step env s (Ev.getDocument k) = (s, [Obs.ret k (RetVal.immediate e.tok)])) ∧
    (s.documentDeferreds k = none → s.documents k = none →
      (step env s (Ev.getDocument k)).1.documentDeferreds k =
          some ⟨s.nextTok, DStatus.pending⟩ ∧
      (step env s (Ev.getDocument k)).1.documents k = none ∧
      (step env s (Ev.getDocument k)).1.documentChanges k = some [] ∧
      (step env s (Ev.getDocument k)).1.fetches = s.fetches ++ [(s.nextTok + 1, k)] ∧
      (step env s (Ev.getDocument k)).2 =
        [Obs.fetchStarted k (s.nextTok + 1),
         Obs.ret k (RetVal.freshPromise s.nextTok)]) := by
  refine ⟨?_, ?_, ?_⟩
  · intro d hd
    simp [step, getDocument, hcr, hd]
  · intro e hd he
    simp [step, getDocument, hcr, hd, he]
  · intro hd he
    simp [step, getDocument, initDocument, resetDocument, hcr, hd, he, upd]

/-- Witness for C3 at the initial state and key `7`: no deferred and no
document exist, so the call starts the `Absent -> Fetching` cycle. -/
theorem claim3_witness :
    (initState (ε := List Change)).crashed = false ∧
    ((∀ d, (initState (ε := List Change)).documentDeferreds 7 = some d →
      step envOk initState (Ev.getDocument 7) =
        (initState, [Obs.ret 7 (RetVal.sharedPromise d.tok)])) ∧
    (∀ e, (initState (ε := List Change)).documentDeferreds 7 = none →
        (initState (ε := List Change)).documents 7 = some e →
      step envOk initState (Ev.getDocument 7) =
        (initState, [Obs.ret 7 (RetVal.immediate e.tok)])) ∧
    ((initState (ε := List Change)).documentDeferreds 7 = none →
        (initState (ε := List Change)).documents 7 = none →
      (step envOk initState (Ev.getDocument 7)).1.documentDeferreds 7 =
          some ⟨(initState (ε := List Change)).nextTok, DStatus.pending⟩ ∧
      (step envOk initState (Ev.getDocument 7)).1.documents 7 = none ∧
      (step envOk initState (Ev.getDocument 7)).1.documentChanges 7 = some [] ∧
      (step envOk initState (Ev.getDocument 7)).1.fetches =
        (initState (ε := List Change)).fetches ++
          [((initState (ε := List Change)).nextTok + 1, 7)] ∧
      (step envOk initState (Ev.getDocument 7)).2 =
        [Obs.fetchStarted 7 ((initState (ε := List Change)).nextTok + 1),
         Obs.ret 7 (RetVal.freshPromise (initState (ε := List Change)).nextTok)])) :=
  ⟨rfl, claim3_getDocument_cases envOk initState 7 rfl⟩

/-- Claim C8: an incoming change record whose (truthy) key has neither a
cached entity nor a registered deferred is dropped by the handler with no
state modification whatsoever. -/
theorem claim8_unknown_key_dropped {ε : Type} (env : Env ε) (s : DMState ε)
    (c : Change) (k : Key) (hcr : s.crashed = false) (hid : c.id = some k)
    (h0 : k ≠ 0) (hd : s.documentDeferreds k = none)
    (hdoc : s.documents k = none) :
    step env s (Ev.imageChanged c) = (s, []) := by
  simp [step, handleImageChanged, hcr, hid, h0, hd, hdoc]

/-- Witness for C8: a change for the never-requested key `7` at the
initial state is dropped and the state is returned unchanged. -/
theorem claim8_witness :
    ((initState (ε := List Change)).crashed = false ∧
      (Change.mk (some 7) 1).id = some 7 ∧ (7 : Key) ≠ 0 ∧
      (initState (ε := List Change)).documentDeferreds 7 = none ∧
      (initState (ε := List Change)).documents 7 = none) ∧
    step envOk initState (Ev.imageChanged ⟨some 7, 1⟩) = (initState, []) :=
  ⟨⟨rfl, rfl, by decide, rfl, rfl⟩,
   claim8_unknown_key_dropped envOk initState ⟨some 7, 1⟩ 7 rfl rfl
     (by decide) rfl rfl⟩

/-- Claim C9: the handler treats the numeric key `0` — a falsy value in
JavaScript — as a malformed change: the record is logged as a warning and
dropped, and no per-key state is created or modified. -/
theorem claim9_zero_key_malformed {ε : Type} (env : Env ε) (s : DMState ε)
    (c : Change) (hcr : s.crashed = false) (hid : c.id = some 0) :
    step env s (Ev.imageChanged c) = (s, [Obs.warnedMalformed c]) := by
  simp [step, handleImageChanged, hcr, hid]

/-- Witness for C9: a change carrying key `0` at the initial state is
logged and dropped with the state unchanged. -/
theorem claim9_witness :
    ((initState (ε := List Change)).crashed = false ∧
      (Change.mk (some 0) 1).id = some 0) ∧
    step envOk initState (Ev.imageChanged ⟨some 0, 1⟩) =
      (initState, [Obs.warnedMalformed ⟨some 0, 1⟩]) :=
  ⟨⟨rfl, rfl⟩, claim9_zero_key_malformed envOk initState ⟨some 0, 1⟩ rfl rfl⟩


/-- Claim C1 (code bug): the claim states that a failed snapshot fetch
rejects the Pending Request AND removes it from the registry so that a
later `getDocument` starts a fresh fetch.  The source rejects the deferred
but never deletes it: after the failing trace `traceFetchFail` the
registry still holds the rejected deferred (token `0`), the second
`getDocument(7)` call returns that same rejected future (`sharedPromise
0`), and no second fetch is started (the only `fetchStarted` observation
is the first one; no fetch is in flight at the end). -/
theorem claim1_fetch_failure_leaves_deferred_registered :
    (run envOk initState traceFetchFail).2 =
      [Obs.fetchStarted 7 1, Obs.ret 7 (RetVal.freshPromise 0),
       Obs.erroredFetch 7 42, Obs.rejectedObs 7 0 (some 42),
       Obs.ret 7 (RetVal.sharedPromise 0)] ∧
    (run envOk initState traceFetchFail).1.documentDeferreds 7 =
      some ⟨0, DStatus.rejectedSt⟩ ∧
    (run envOk initState traceFetchFail).1.fetches = [] ∧
    (run envOk initState traceFetchFail).1.documents 7 = none := by
  decide

/-- Claim C5: a closed signal from a subscribed entity clears the cached
entity and the change queue for its key, rejects and removes any
registered deferred, and a subsequent `getDocument` for that key starts a
fresh `Absent -> Fetching` cycle (new pending deferred, new snapshot
fetch). -/
theorem claim5_closed_clears_and_rejects {ε : Type} (env : Env ε)
    (s : DMState ε) (etok : Nat) (k : Key) (hcr : s.crashed = false)
    (hsub : s.subscribers.find? (fun p => p.1 = etok) = some (etok, k)) :
    (step env s (Ev.closedSignal etok)).1.documents k = none ∧
    (step env s (Ev.closedSignal etok)).1.documentChanges k = none ∧
    (step env s (Ev.closedSignal etok)).1.documentDeferreds k = none ∧
    (step env s (Ev.closedSignal etok)).1.crashed = false ∧
    (∀ d, s.documentDeferreds k = some d → d.status = DStatus.pending →
      (step env s (Ev.closedSignal etok)).2 = [Obs.rejectedObs k d.tok none]) ∧
    (s.documentDeferreds k = none → (step env s (Ev.closedSignal etok)).2 = []) ∧
    (step env (step env s (Ev.closedSignal etok)).1
        (Ev.getDocument k)).1.documentDeferreds k =
      some ⟨s.nextTok, DStatus.pending⟩ ∧
    (step env (step env s (Ev.closedSignal etok)).1 (Ev.getDocument k)).2 =
      [Obs.fetchStarted k (s.nextTok + 1),
       Obs.ret k (RetVal.freshPromise s.nextTok)] := by
  cases hd : s.documentDeferreds k with
  | none =>
      simp [step, closedHandler, getDocument, initDocument, resetDocument,
        hsub, hcr, hd, upd]
  | some d =>
      simp [step, closedHandler, getDocument, initDocument, resetDocument,
        hsub, hcr, hd, upd]

/-- Witness for C5 at the concrete `Ready` state `readyW` (entity token
`2` installed for key `7` and subscribed to the closed signal). -/
theorem claim5_witness :
    (readyW.crashed = false ∧
      readyW.subscribers.find? (fun p => p.1 = 2) = some (2, 7)) ∧
    ((step envOk readyW (Ev.closedSignal 2)).1.documents 7 = none ∧
    (step envOk readyW (Ev.closedSignal 2)).1.documentChanges 7 = none ∧
    (step envOk readyW (Ev.closedSignal 2)).1.documentDeferreds 7 = none ∧
    (step envOk readyW (Ev.closedSignal 2)).1.crashed = false ∧
    (∀ d, readyW.documentDeferreds 7 = some d → d.status = DStatus.pending →
      (step envOk readyW (Ev.closedSignal 2)).2 = [Obs.rejectedObs 7 d.tok none]) ∧
    (readyW.documentDeferreds 7 = none →
      (step envOk readyW (Ev.closedSignal 2)).2 = []) ∧
    (step envOk (step envOk readyW (Ev.closedSignal 2)).1
        (Ev.getDocument 7)).1.documentDeferreds 7 =
      some ⟨readyW.nextTok, DStatus.pending⟩ ∧
    (step envOk (step envOk readyW (Ev.closedSignal 2)).1 (Ev.getDocument 7)).2 =
      [Obs.fetchStarted 7 (readyW.nextTok + 1),
       Obs.ret 7 (RetVal.freshPromise readyW.nextTok)]) :=
  ⟨⟨rfl, by decide⟩, claim5_closed_clears_and_rejects envOk readyW 2 7 rfl (by decide)⟩

/-- Counterexample to claim C6 as stated: the claim says that after a
closed signal arrives mid-fetch, the fetch result, once it completes, is
ignored and the closed key is never repopulated with an entity.  In the
trace `traceClosedMidFetch` the closed signal from the discarded entity
(token `2`) arrives while the resync fetch (token `4`) is in flight and
rejects the waiting deferred (token `3`), yet when that fetch completes
the key IS repopulated: `_documents[7]` ends up holding the new entity
(token `5`) even though the queue and deferred for key `7` are gone. -/
theorem claim6_counterexample :
    (run envFail initState traceClosedMidFetch).2 =
      [Obs.fetchStarted 7 1, Obs.ret 7 (RetVal.freshPromise 0),
       Obs.resolvedObs 7 0 (some 2),
       Obs.applied 7 ⟨some 7, 99⟩ false, Obs.warnedApplyFail 7,
       Obs.fetchStarted 7 4, Obs.rejectedObs 7 3 none] ∧
    (run envFail initState traceClosedMidFetch).1.documents 7 = some ⟨5, []⟩ ∧
    (run envFail initState traceClosedMidFetch).1.documentDeferreds 7 = none ∧
    (run envFail initState traceClosedMidFetch).1.documentChanges 7 = none := by
  decide

/-- Claim C6 as amended: a closed signal arriving while a fetch for the
same key is in flight rejects the waiting Pending Request, but the fetch
result is NOT ignored once it completes: the new entity is installed for
the closed key (the key is repopulated); only the drain step after
installation is a no-op, because the closed handler removed the queue and
the deferred, so nothing further settles. -/
theorem claim6_amended_late_fetch_repopulates {ε : Type} (env : Env ε)
    (s : DMState ε) (etok ftok : Nat) (k : Key) (d : Deferred) (raw : Nat)
    (hcr : s.crashed = false)
    (hsub : s.subscribers.find? (fun p => p.1 = etok) = some (etok, k))
    (hf : s.fetches.find? (fun p => p.1 = ftok) = some (ftok, k))
    (hd : s.documentDeferreds k = some d) (hp : d.status = DStatus.pending) :
    (step env s (Ev.closedSignal etok)).2 = [Obs.rejectedObs k d.tok none] ∧
    (step env (step env s (Ev.closedSignal etok)).1
        (Ev.fetchSucceeds ftok raw)).1.documents k =
      some ⟨s.nextTok, env.mkDoc raw⟩ ∧
    (step env (step env s (Ev.closedSignal etok)).1
        (Ev.fetchSucceeds ftok raw)).2 = [] ∧
    (step env (step env s (Ev.closedSignal etok)).1
        (Ev.fetchSucceeds ftok raw)).1.documentDeferreds k = none := by
  simp [step, closedHandler, fetchSuccess, hsub, hf, hcr, hd, hp, upd,
    pnc_changes_none]

/-- Witness for the amended C6 at the concrete mid-resync state
`midResyncW`: the discarded entity (token `2`) emits closed while the
refetch (token `4`) is in flight for key `7`, rejecting deferred `3`; the
completing fetch then installs entity token `5` for the closed key. -/
theorem claim6_amended_witness :
    (midResyncW.crashed = false ∧
      midResyncW.subscribers.find? (fun p => p.1 = 2) = some (2, 7) ∧
      midResyncW.fetches.find? (fun p => p.1 = 4) = some (4, 7) ∧
      midResyncW.documentDeferreds 7 = some ⟨3, DStatus.pending⟩ ∧
      (Deferred.mk 3 DStatus.pending).status = DStatus.pending) ∧
    ((step envFail midResyncW (Ev.closedSignal 2)).2 =
        [Obs.rejectedObs 7 3 none] ∧
    (step envFail (step envFail midResyncW (Ev.closedSignal 2)).1
        (Ev.fetchSucceeds 4 6)).1.documents 7 =
      some ⟨midResyncW.nextTok, envFail.mkDoc 6⟩ ∧
    (step envFail (step envFail midResyncW (Ev.closedSignal 2)).1
        (Ev.fetchSucceeds 4 6)).2 = [] ∧
    (step envFail (step envFail midResyncW (Ev.closedSignal 2)).1
        (Ev.fetchSucceeds 4 6)).1.documentDeferreds 7 = none) :=
  ⟨⟨rfl, by decide, by decide, by decide, rfl⟩,
   claim6_amended_late_fetch_repopulates envFail midResyncW 2 4 7
     ⟨3, DStatus.pending⟩ 6 rfl (by decide) (by decide) (by decide) rfl⟩

/-- Counterexample to claim C10 as stated: the claim says that whenever a
snapshot fetch for a key fails, a Pending Request for that key still
exists, so the failure handler's unguarded
`this._documentDeferreds[id].reject(err)` is always defined — including
after a closed signal delivered mid-fetch.  In the trace
`traceClosedMidFetchFail` the closed signal from the discarded entity
removes the deferred while the resync fetch is in flight, and when that
fetch then fails the handler dereferences `undefined` and throws (the
embedding's `crashed` flag). -/
theorem claim10_counterexample :
    (run envFail initState traceClosedMidFetchFail).2 =
      [Obs.fetchStarted 7 1, Obs.ret 7 (RetVal.freshPromise 0),
       Obs.resolvedObs 7 0 (some 2),
       Obs.applied 7 ⟨some 7, 99⟩ false, Obs.warnedApplyFail 7,
       Obs.fetchStarted 7 4, Obs.rejectedObs 7 3 none,
       Obs.erroredFetch 7 11] ∧
    (run envFail initState traceClosedMidFetchFail).1.crashed = true := by
  decide

/-- Claim C10 as amended: when a snapshot fetch for a key fails, the
failure handler's unguarded registry access is defined exactly when a
deferred is still registered for the key — in that case it is rejected
(and, against the claim's intent, left in the registry) — whereas if a
closed signal delivered mid-fetch removed the deferred, the handler
dereferences `undefined` and throws. -/
theorem claim10_amended_fetch_failure_guard {ε : Type} (env : Env ε)
    (s : DMState ε) (ftok : Nat) (k : Key) (err : Nat)
    (hcr : s.crashed = false)
    (hf : s.fetches.find? (fun p => p.1 = ftok) = some (ftok, k)) :
    (∀ d, s.documentDeferreds k = some d →
      (step env s (Ev.fetchFails ftok err)).1.crashed = false ∧
      (step env s (Ev.fetchFails ftok err)).1.documentDeferreds k =
        some ⟨d.tok, DStatus.rejectedSt⟩ ∧
      (d.status = DStatus.pending →
        (step env s (Ev.fetchFails ftok err)).2 =
          [Obs.erroredFetch k err, Obs.rejectedObs k d.tok (some err)])) ∧
    (s.documentDeferreds k = none →
      (step env s (Ev.fetchFails ftok err)).1.crashed = true ∧
      (step env s (Ev.fetchFails ftok err)).2 = [Obs.erroredFetch k err]) := by
  constructor
  · intro d hd
    refine ⟨?_, ?_, ?_⟩ <;>
      simp [step, fetchFailure, hf, hcr, hd, upd]
  · intro hd
    simp [step, fetchFailure, hf, hcr, hd]

/-- Witness for the amended C10 at the concrete mid-resync state
`midResyncW`: the refetch (token `4`) fails while deferred `3` is still
registered, so the handler runs without throwing and rejects it. -/
theorem claim10_amended_witness :
    (midResyncW.crashed = false ∧
      midResyncW.fetches.find? (fun p => p.1 = 4) = some (4, 7)) ∧
    ((∀ d, midResyncW.documentDeferreds 7 = some d →
      (step envFail midResyncW (Ev.fetchFails 4 11)).1.crashed = false ∧
      (step envFail midResyncW (Ev.fetchFails 4 11)).1.documentDeferreds 7 =
        some ⟨d.tok, DStatus.rejectedSt⟩ ∧
      (d.status = DStatus.pending →
        (step envFail midResyncW (Ev.fetchFails 4 11)).2 =
          [Obs.erroredFetch 7 11, Obs.rejectedObs 7 d.tok (some 11)])) ∧
    (midResyncW.documentDeferreds 7 = none →
      (step envFail midResyncW (Ev.fetchFails 4 11)).1.crashed = true ∧
      (step envFail midResyncW (Ev.fetchFails 4 11)).2 =
        [Obs.erroredFetch 7 11])) :=
  ⟨⟨rfl, by decide⟩,
   claim10_amended_fetch_failure_guard envFail midResyncW 4 7 11 rfl (by decide)⟩


theorem appliedOf_append (a b : List Obs) :
    appliedOf (a ++ b) = appliedOf a ++ appliedOf b := by
  induction a with
  | nil => rfl
  | cons o os ih => cases o <;> simp [appliedOf, ih]

theorem step_ready {ε : Type} (env : Env ε) (s : DMState ε) (k : Key)
    (e : Entity ε) (c : Change) (hR : Ready s k e) (hid : c.id = some k)
    (h0 : k ≠ 0) (hap : (env.apply e.val c).1 = true) :
    (step env s (Ev.imageChanged c)).2 =
      [Obs.applied k c true, Obs.resolvedObs k s.nextTok (some e.tok)] ∧
    Ready (step env s (Ev.imageChanged c)).1 k ⟨e.tok, (env.apply e.val c).2⟩ := by
  obtain ⟨hcr, hdoc, hdef, hq⟩ := hR
  cases hq with
  | inl hq =>
      constructor <;>
        simp [step, handleImageChanged, processNextChange, processNextChangeAux,
          Ready, hcr, hdoc, hdef, hq, hid, h0, hap, upd]
  | inr hq =>
      constructor <;>
        simp [step, handleImageChanged, processNextChange, processNextChangeAux,
          Ready, hcr, hdoc, hdef, hq, hid, h0, hap, upd]

/-- Claim C2: from a `Ready` state, a sequence of changes delivered one at
a time, each of which `_applyChange` accepts, yields exactly one
`_applyChange` call per change, in delivery order (the drain always shifts
the front of the queue), and the final entity state is the sequential
application of the changes; no deferred remains registered afterwards. -/
theorem claim2_ready_changes_apply_in_order {ε : Type} (env : Env ε)
    (cs : List Change) (s : DMState ε) (k : Key) (e : Entity ε)
    (hR : Ready s k e) (hall : ∀ c ∈ cs, c.id = some k) (h0 : k ≠ 0)
    (hap : allApplicable env e.val cs = true) :
    (run env s (cs.map Ev.imageChanged)).1.documents k =
      some ⟨e.tok, applyList env e.val cs⟩ ∧
    (run env s (cs.map Ev.imageChanged)).1.documentDeferreds k = none ∧
    appliedOf (run env s (cs.map Ev.imageChanged)).2 =
      cs.map (fun c => (k, c, true)) := by
  induction cs generalizing s e with
  | nil =>
      obtain ⟨hcr, hdoc, hdef, hq⟩ := hR
      simp [run, applyList, appliedOf, hdoc, hdef]
  | cons c cs ih =>
      have hmem : c.id = some k := hall c (List.mem_cons_self c cs)
      have hap1 : (env.apply e.val c).1 = true := by
        have := hap
        simp [allApplicable, Bool.and_eq_true] at this
        exact this.1
      have hap2 : allApplicable env (env.apply e.val c).2 cs = true := by
        have := hap
        simp [allApplicable, Bool.and_eq_true] at this
        exact this.2
      obtain ⟨hobs, hR2⟩ := step_ready env s k e c hR hmem h0 hap1
      have ihr := ih (step env s (Ev.imageChanged c)).1
        ⟨e.tok, (env.apply e.val c).2⟩ hR2
        (fun c hc => hall c (List.mem_cons_of_mem _ hc)) hap2
      refine ⟨?_, ?_, ?_⟩
      · simpa [run, applyList] using ihr.1
      · simpa [run] using ihr.2.1
      · simp [run, appliedOf_append, hobs, appliedOf, ihr.2.2]

/-- Witness for C2 at the concrete `Ready` state `readyW`: two applicable
changes delivered one at a time are both applied in order and the entity
ends in the sequentially applied state. -/
theorem claim2_witness :
    (Ready readyW 7 ⟨2, []⟩ ∧
      (∀ c ∈ [Change.mk (some 7) 1, Change.mk (some 7) 2], c.id = some 7) ∧
      (7 : Key) ≠ 0 ∧
      allApplicable envOk []
        [Change.mk (some 7) 1, Change.mk (some 7) 2] = true) ∧
    ((run envOk readyW
        ([Change.mk (some 7) 1, Change.mk (some 7) 2].map Ev.imageChanged)).1.documents
        7 =
      some ⟨2, applyList envOk [] [Change.mk (some 7) 1, Change.mk (some 7) 2]⟩ ∧
    (run envOk readyW
        ([Change.mk (some 7) 1,
          Change.mk (some 7) 2].map Ev.imageChanged)).1.documentDeferreds 7 =
      none ∧
    appliedOf (run envOk readyW
        ([Change.mk (some 7) 1, Change.mk (some 7) 2].map Ev.imageChanged)).2 =
      [Change.mk (some 7) 1, Change.mk (some 7) 2].map (fun c => (7, c, true))) :=
  ⟨⟨⟨rfl, by decide, rfl, Or.inl (by decide)⟩, by decide, by decide, by decide⟩,
   claim2_ready_changes_apply_in_order envOk
     [Change.mk (some 7) 1, Change.mk (some 7) 2] readyW 7 ⟨2, []⟩
     ⟨rfl, by decide, rfl, Or.inl (by decide)⟩ (by decide) (by decide) (by decide)⟩

theorem pnc_fails {ε : Type} (env : Env ε) (cs : List Change) :
    ∀ (s : DMState ε) (k : Key) (d : Deferred) (e : Entity ε),
    s.documents k = some e → s.documentDeferreds k = some d →
    s.documentChanges k = some cs → failsSomewhere env e.val cs = true →
    (processNextChange env s k).1.documents k = none ∧
    (processNextChange env s k).1.documentChanges k = some [] ∧
    (processNextChange env s k).1.documentDeferreds k = some d ∧
    (processNextChange env s k).1.crashed = s.crashed ∧
    (processNextChange env s k).1.fetches = s.fetches ++ [(s.nextTok, k)] ∧
    (processNextChange env s k).1.nextTok = s.nextTok + 1 ∧
    (processNextChange env s k).1.subscribers = s.subscribers ∧
    (processNextChange env s k).2.countP (isSettle k) = 0 ∧
    (processNextChange env s k).2.countP (isStart k) = 1 := by
  induction cs with
  | nil =>
      intro s k d e hdoc hdef hc hfail
      simp [failsSomewhere] at hfail
  | cons c rest ih =>
      intro s k d e hdoc hdef hc hfail
      cases hap : (env.apply e.val c).1 with
      | false =>
          rw [pnc_cons_fail env s k d c rest e hc hdef hdoc hap]
          simp [resetDocument, upd, hdef, isSettle, isStart,
            List.countP_cons, List.countP_nil]
      | true =>
          rw [pnc_cons_ok env s k d c rest e hc hdef hdoc hap]
          have hfail2 : failsSomewhere env (env.apply e.val c).2 rest = true := by
            simp [failsSomewhere, hap] at hfail
            exact hfail
          obtain ⟨A1, A2, A3, A4, A5, A6, A7, A8, A9⟩ :=
            ih { s with
                  documentChanges := upd s.documentChanges k (some rest),
                  documents :=
                    upd s.documents k (some ⟨e.tok, (env.apply e.val c).2⟩) }
              k d ⟨e.tok, (env.apply e.val c).2⟩ (by simp) hdef (by simp) hfail2
          simp_all [isSettle, isStart, List.countP_cons]

/-- Claim C4: when a fetch completes into a queue on which `_applyChange`
fails partway, exactly one refetch is started, the remaining queued
changes and the entity are discarded, the existing deferred is preserved
and not settled, and once the refetch completes (with the then-empty
queue) the original deferred resolves with the fresh entity. -/
theorem claim4_apply_failure_resync {ε : Type} (env : Env ε) (s : DMState ε)
    (ftok : Nat) (k : Key) (raw raw2 : Nat) (d : Deferred) (cs : List Change)
    (hcr : s.crashed = false)
    (hfet : s.fetches = [(ftok, k)])
    (hdef : s.documentDeferreds k = some d)
    (hp : d.status = DStatus.pending)
    (hq : s.documentChanges k = some cs)
    (hfail : failsSomewhere env (env.mkDoc raw) cs = true) :
    (step env s (Ev.fetchSucceeds ftok raw)).1.documentDeferreds k = some d ∧
    (step env s (Ev.fetchSucceeds ftok raw)).1.documents k = none ∧
    (step env s (Ev.fetchSucceeds ftok raw)).1.documentChanges k = some [] ∧
    (step env s (Ev.fetchSucceeds ftok raw)).1.crashed = false ∧
    (step env s (Ev.fetchSucceeds ftok raw)).2.countP (isSettle k) = 0 ∧
    (step env s (Ev.fetchSucceeds ftok raw)).2.countP (isStart k) = 1 ∧
    (step env s (Ev.fetchSucceeds ftok raw)).1.fetches = [(s.nextTok + 1, k)] ∧
    (step env (step env s (Ev.fetchSucceeds ftok raw)).1
        (Ev.fetchSucceeds (s.nextTok + 1) raw2)).2 =
      [Obs.resolvedObs k d.tok (some (s.nextTok + 2))] ∧
    (step env (step env s (Ev.fetchSucceeds ftok raw)).1
        (Ev.fetchSucceeds (s.nextTok + 1) raw2)).1.documentDeferreds k = none ∧
    (step env (step env s (Ev.fetchSucceeds ftok raw)).1
        (Ev.fetchSucceeds (s.nextTok + 1) raw2)).1.documents k =
      some ⟨s.nextTok + 2, env.mkDoc raw2⟩ := by
  have hstep2 : ∀ (t : DMState ε), t.crashed = false →
      t.fetches = [(s.nextTok + 1, k)] → t.documentChanges k = some [] →
      t.documentDeferreds k = some d → t.nextTok = s.nextTok + 2 →
      (step env t (Ev.fetchSucceeds (s.nextTok + 1) raw2)).2 =
        [Obs.resolvedObs k d.tok (some (s.nextTok + 2))] ∧
      (step env t (Ev.fetchSucceeds (s.nextTok + 1) raw2)).1.documentDeferreds k =
        none ∧
      (step env t (Ev.fetchSucceeds (s.nextTok + 1) raw2)).1.documents k =
        some ⟨s.nextTok + 2, env.mkDoc raw2⟩ := by
    intro t ht1 ht2 ht3 ht4 ht5
    have hst : step env t (Ev.fetchSucceeds (s.nextTok + 1) raw2) =
        processNextChange env
          { t with
              fetches := [],
              documents := upd t.documents k (some ⟨t.nextTok, env.mkDoc raw2⟩),
              subscribers := t.subscribers ++ [(t.nextTok, k)],
              nextTok := t.nextTok + 1 } k := by
      simp [step, ht1, ht2, fetchSuccess]
    rw [hst, pnc_nil env _ k d (by simp [ht3]) (by simp [ht4])]
    simp [upd, hp, ht5]
  have hstep1 : step env s (Ev.fetchSucceeds ftok raw) =
      processNextChange env
        { s with
            fetches := [],
            documents := upd s.documents k (some ⟨s.nextTok, env.mkDoc raw⟩),
            subscribers := s.subscribers ++ [(s.nextTok, k)],
            nextTok := s.nextTok + 1,
            crashed := false } k := by
    simp [step, hcr, hfet, fetchSuccess]
  obtain ⟨A1, A2, A3, A4, A5, A6, A7, A8, A9⟩ :=
    pnc_fails env cs
      { s with
          fetches := [],
          documents := upd s.documents k (some ⟨s.nextTok, env.mkDoc raw⟩),
          subscribers := s.subscribers ++ [(s.nextTok, k)],
          nextTok := s.nextTok + 1,
          crashed := false } k d ⟨s.nextTok, env.mkDoc raw⟩
      (by simp) hdef hq hfail
  rw [hstep1]
  obtain ⟨B1, B2, B3⟩ := hstep2 _ (by simpa using A4) (by simpa using A5) A2 A3
    (by simpa using A6)
  exact ⟨A3, A1, A2, by simpa using A4, A8, A9, by simpa using A5, B1, B2, B3⟩

/-- Witness for C4 at the concrete mid-fetch state `midFetchQueueW`: the
fetch (token `4`) completes into a three-element queue whose second change
`envFail` rejects; exactly one refetch starts, the queue and entity are
discarded, deferred `3` survives unsettled, and the completing refetch
resolves it. -/
theorem claim4_witness :
    (midFetchQueueW.crashed = false ∧
      midFetchQueueW.fetches = [(4, 7)] ∧
      midFetchQueueW.documentDeferreds 7 = some ⟨3, DStatus.pending⟩ ∧
      (Deferred.mk 3 DStatus.pending).status = DStatus.pending ∧
      midFetchQueueW.documentChanges 7 =
        some [Change.mk (some 7) 1, Change.mk (some 7) 99, Change.mk (some 7) 2] ∧
      failsSomewhere envFail (envFail.mkDoc 9)
        [Change.mk (some 7) 1, Change.mk (some 7) 99, Change.mk (some 7) 2] =
        true) ∧
    ((step envFail midFetchQueueW (Ev.fetchSucceeds 4 9)).1.documentDeferreds 7 =
      some ⟨3, DStatus.pending⟩ ∧
    (step envFail midFetchQueueW (Ev.fetchSucceeds 4 9)).1.documents 7 = none ∧
    (step envFail midFetchQueueW (Ev.fetchSucceeds 4 9)).1.documentChanges 7 =
      some [] ∧
    (step envFail midFetchQueueW (Ev.fetchSucceeds 4 9)).1.crashed = false ∧
    (step envFail midFetchQueueW (Ev.fetchSucceeds 4 9)).2.countP (isSettle 7) =
      0 ∧
    (step envFail midFetchQueueW (Ev.fetchSucceeds 4 9)).2.countP (isStart 7) =
      1 ∧
    (step envFail midFetchQueueW (Ev.fetchSucceeds 4 9)).1.fetches =
      [(midFetchQueueW.nextTok + 1, 7)] ∧
    (step envFail (step envFail midFetchQueueW (Ev.fetchSucceeds 4 9)).1
        (Ev.fetchSucceeds (midFetchQueueW.nextTok + 1) 6)).2 =
      [Obs.resolvedObs 7 3 (some (midFetchQueueW.nextTok + 2))] ∧
    (step envFail (step envFail midFetchQueueW (Ev.fetchSucceeds 4 9)).1
        (Ev.fetchSucceeds (midFetchQueueW.nextTok + 1) 6)).1.documentDeferreds 7 =
      none ∧
    (step envFail (step envFail midFetchQueueW (Ev.fetchSucceeds 4 9)).1
        (Ev.fetchSucceeds (midFetchQueueW.nextTok + 1) 6)).1.documents 7 =
      some ⟨midFetchQueueW.nextTok + 2, envFail.mkDoc 6⟩) :=
  ⟨⟨rfl, rfl, by decide, rfl, by decide, by decide⟩,
   claim4_apply_failure_resync envFail midFetchQueueW 4 7 9 6
     ⟨3, DStatus.pending⟩
     [Change.mk (some 7) 1, Change.mk (some 7) 99, Change.mk (some 7) 2]
     rfl rfl (by decide) rfl (by decide) (by decide)⟩

theorem pncAux_deferreds_pres {ε : Type} (env : Env ε) :
    ∀ (fuel : Nat) (s : DMState ε) (id q : Key),
    (processNextChangeAux env fuel s id).1.documentDeferreds q =
      s.documentDeferreds q ∨
    (processNextChangeAux env fuel s id).1.documentDeferreds q = none := by
  intro fuel
  induction fuel with
  | zero => intro s id q; left; rfl
  | succ n ih =>
      intro s id q
      rw [processNextChangeAux]
      cases hc : s.documentChanges id with
      | none => left; rfl
      | some cs =>
          cases hd : s.documentDeferreds id with
          | none => cases cs <;> (left; rfl)
          | some d =>
              cases cs with
              | nil =>
                  by_cases hq : q = id
                  · subst hq; right; simp [upd]
                  · left; simp [upd, hq]
              | cons c rest =>
                  cases he : s.documents id with
                  | none => left; rfl
                  | some e =>
                      by_cases hap : (env.apply e.val c).1 = true
                      · simp only [hap, if_true]
                        exact ih _ id q
                      · simp only [if_neg hap]
                        left; rfl

theorem pnc_deferreds_pres {ε : Type} (env : Env ε) (s : DMState ε)
    (id q : Key) :
    (processNextChange env s id).1.documentDeferreds q =
      s.documentDeferreds q ∨
    (processNextChange env s id).1.documentDeferreds q = none :=
  pncAux_deferreds_pres env _ s id q

theorem hic_deferreds_pres {ε : Type} (env : Env ε) (s : DMState ε)
    (c : Change) (k : Key) (d : Deferred)
    (hd : s.documentDeferreds k = some d) :
    (handleImageChanged env s c).1.documentDeferreds k = some d ∨
    (handleImageChanged env s c).1.documentDeferreds k = none := by
  unfold handleImageChanged
  by_cases h0 : c.id = none ∨ c.id = some 0
  · rw [if_pos h0]; left; exact hd
  · rw [if_neg h0]
    by_cases hk : k = c.id.getD 0
    · subst hk
      simp only [hd, Option.isNone_some, Bool.and_false, Bool.false_eq_true,
        if_false, ite_false]
      left
      exact hd
    · by_cases hg : ((s.documentDeferreds (c.id.getD 0)).isNone &&
          (s.documents (c.id.getD 0)).isNone) = true
      · rw [if_pos hg]; left; exact hd
      · rw [if_neg hg]
        simp only []
        split_ifs with h1 h2
        · rcases pnc_deferreds_pres env _ (c.id.getD 0) k with hpres | hpres
          · left
            rw [hpres]
            simp [upd, hk, hd]
          · right; exact hpres
        · left
          simp [initDocument, resetDocument, upd, hk, hd]
        · left; exact hd

/-- Claim C7: the Pending-Request registry holds at most one deferred per
key by construction (it is a map from keys to at most one deferred), and
every event preserves it: when a deferred is registered for a key, any
step either leaves that key's entry with the same underlying promise token
(possibly rejected in place by a fetch failure) or removes it — no step
ever replaces it with a newly created deferred, so a new deferred is
created for a key only when none exists. -/
theorem claim7_at_most_one_pending_request {ε : Type} (env : Env ε)
    (s : DMState ε) (ev : Ev) (k : Key) (d : Deferred)
    (hcr : s.crashed = false) (hd : s.documentDeferreds k = some d) :
    (step env s ev).1.documentDeferreds k = none ∨
    ∃ st, (step env s ev).1.documentDeferreds k = some ⟨d.tok, st⟩ := by
  obtain ⟨dt, ds⟩ := d
  cases ev with
  | getDocument q =>
      cases hdq : s.documentDeferreds q with
      | some d2 =>
          right
          exact ⟨ds, by simp [step, getDocument, hcr, hdq, hd]⟩
      | none =>
          have hkq : k ≠ q := by
            intro h
            rw [h, hdq] at hd
            exact Option.noConfusion hd
          cases hq : s.documents q with
          | some e =>
              right
              exact ⟨ds, by simp [step, getDocument, hcr, hdq, hq, hd]⟩
          | none =>
              right
              refine ⟨ds, ?_⟩
              simp [step, getDocument, initDocument, resetDocument, hcr,
                hdq, hq, upd, hkq, hd]
  | imageChanged c =>
      have hstep : step env s (Ev.imageChanged c) = handleImageChanged env s c := by
        simp [step, hcr]
      rw [hstep]
      rcases hic_deferreds_pres env s c k ⟨dt, ds⟩ hd with h | h
      · right; exact ⟨ds, h⟩
      · left; exact h
  | fetchSucceeds ftok raw =>
      cases hf : s.fetches.find? (fun p => p.1 = ftok) with
      | none => right; exact ⟨ds, by simp [step, hcr, hf, hd]⟩
      | some p =>
          have hstep : step env s (Ev.fetchSucceeds ftok raw) =
              processNextChange env
                { s with
                    fetches := s.fetches.filter (fun q => q.1 ≠ ftok),
                    documents := upd s.documents p.2
                      (some ⟨s.nextTok, env.mkDoc raw⟩),
                    subscribers := s.subscribers ++ [(s.nextTok, p.2)],
                    nextTok := s.nextTok + 1 } p.2 := by
            simp [step, hcr, hf, fetchSuccess]
          rw [hstep]
          rcases pnc_deferreds_pres env _ p.2 k with h | h
          · right
            refine ⟨ds, ?_⟩
            rw [h]
            exact hd
          · left; exact h
  | fetchFails ftok err =>
      cases hf : s.fetches.find? (fun p => p.1 = ftok) with
      | none => right; exact ⟨ds, by simp [step, hcr, hf, hd]⟩
      | some p =>
          cases hdp : s.documentDeferreds p.2 with
          | none =>
              right
              exact ⟨ds, by simp [step, fetchFailure, hcr, hf, hdp, hd]⟩
          | some d0 =>
              by_cases hkp : k = p.2
              · subst hkp
                rw [hdp] at hd
                injection hd with hd0
                right
                refine ⟨DStatus.rejectedSt, ?_⟩
                simp [step, fetchFailure, hcr, hf, hdp, upd, hd0]
              · right
                refine ⟨ds, ?_⟩
                simp [step, fetchFailure, hcr, hf, hdp, upd, hkp, hd]
  | closedSignal etok =>
      cases hf : s.subscribers.find? (fun p => p.1 = etok) with
      | none => right; exact ⟨ds, by simp [step, hcr, hf, hd]⟩
      | some p =>
          cases hdp : s.documentDeferreds p.2 with
          | none =>
              right
              exact ⟨ds, by simp [step, closedHandler, hcr, hf, hdp, hd]⟩
          | some d0 =>
              by_cases hkp : k = p.2
              · subst hkp
                left
                simp [step, closedHandler, hcr, hf, hdp, upd]
              · right
                refine ⟨ds, ?_⟩
                simp [step, closedHandler, hcr, hf, hdp, upd, hkp, hd]

/-- Witness for C7 at the concrete mid-resync state `midResyncW`, with the
in-flight refetch failing: the registered deferred (token `3`) is kept at
key `7` with the same token (rejected in place), not replaced. -/
theorem claim7_witness :
    (midResyncW.crashed = false ∧
      midResyncW.documentDeferreds 7 = some ⟨3, DStatus.pending⟩) ∧
    ((step envFail midResyncW (Ev.fetchFails 4 11)).1.documentDeferreds 7 =
        none ∨
      ∃ st, (step envFail midResyncW (Ev.fetchFails 4 11)).1.documentDeferreds 7 =
        some ⟨3, st⟩) :=
  ⟨⟨rfl, by decide⟩,
   claim7_at_most_one_pending_request envFail midResyncW (Ev.fetchFails 4 11) 7
     ⟨3, DStatus.pending⟩ rfl (by decide)⟩

end GenAssets
